import Mathlib

/-!
# ClassGuard AI backend — attendance summary and auto-lock verification

Shallow embedding of the attendance-summary / auto-lock subsystem of the
ClassGuard AI backend (`src/main.py`, `src/schemas.py`).

The document store is modelled as an association list of student documents
keyed by their id, together with a list of attendance-log documents.  Fields
that a stored document may lack (`category`, `locked_for_attendance`,
`status`) are `Option`-valued; the code reads them with `.get(..., default)`,
modelled by `Option.getD`.  Python floats are modelled as exact rationals and
Python's `round(x, 2)` as round-half-to-even to two decimal places.
Timestamps are integers (seconds); a window of `days` days before `now`
covers timestamps `≥ now - days * 86400`.
-/

namespace ClassGuard

/-- A stored student document (collection `student`).  Only the fields the
attendance core reads are modelled; both may be absent from a raw document,
which the code handles via `student.get(...)`. -/
structure StudentDoc where
  category : Option String
  locked_for_attendance : Option Bool
deriving DecidableEq, Repr

/-- A stored attendance-log document (collection `attendancelog`).
`status` may be absent; `main.py` reads it with `l.get("status", "present")`. -/
structure AttendanceDoc where
  student_id : String
  status : Option String
  timestamp : Int
deriving DecidableEq, Repr

/-- The shared document store: students keyed by id, plus attendance logs. -/
structure Store where
  students : List (String × StudentDoc)
  logs : List AttendanceDoc
deriving DecidableEq, Repr

/-- The response model `AttendanceSummary` of `main.py`. -/
structure AttendanceSummary where
  total : Nat
  present : Nat
  absent : Nat
  percentage : ℚ
  locked_for_attendance : Bool
deriving DecidableEq, Repr

/-- Domain errors surfaced by the endpoints (404 / invalid-argument 4xx). -/
inductive Err where
  | notFound
  | invalidArgument
deriving DecidableEq, Repr

/-- Result of one evaluator call: the HTTP-level response, the store after
the call, and the number of storage writes performed during the call. -/
structure EvalResult where
  response : Except Err AttendanceSummary
  store : Store
  writes : Nat

/-- `find_one({"_id": sid})` on the student collection: first document whose
key equals `sid`. -/
def findDoc : List (String × StudentDoc) → String → Option StudentDoc
  | [], _ => none
  | p :: rest, sid => if p.1 = sid then some p.2 else findDoc rest sid

/-- `update_one({"_id": sid}, {"$set": {"locked_for_attendance": v}})`:
sets the lock field on the first document whose key equals `sid`, leaving
every other document untouched. -/
def updateFirst : List (String × StudentDoc) → String → Bool → List (String × StudentDoc)
  | [], _, _ => []
  | p :: rest, sid, v =>
    if p.1 = sid then (p.1, { p.2 with locked_for_attendance := some v }) :: rest
    else p :: updateFirst rest sid v

/-- Round-half-to-even to the nearest integer, the rounding mode of Python's
built-in `round`. -/
def roundHalfEven (q : ℚ) : Int :=
  let n := ⌊q⌋
  let r := q - (n : ℚ)
  if r < 1/2 then n
  else if 1/2 < r then n + 1
  else if n % 2 = 0 then n else n + 1

/-- Python's `round(q, 2)`: round to two decimal places, ties to even. -/
def round2 (q : ℚ) : ℚ := (roundHalfEven (q * 100) : ℚ) / 100

/-- `main.py` line 147: `round((present / total) * 100, 2) if total else 0.0`. -/
def pct (present total : Nat) : ℚ :=
  if total = 0 then 0 else round2 ((present : ℚ) / (total : ℚ) * 100)

/-- `main.py` line 145: a log counts as present iff
`l.get("status", "present") == "present"`. -/
def isPresent (l : AttendanceDoc) : Bool := l.status.getD "present" == "present"

/-- Lines 139–143: the logs retrieved for the window, i.e. those with
matching `student_id` and `timestamp >= since` where
`since = now - days days`. -/
def windowLogs (st : Store) (sid : String) (days : Nat) (now : Int) : List AttendanceDoc :=
  st.logs.filter fun l => l.student_id == sid && decide (now - (days : Int) * 86400 ≤ l.timestamp)

/-- Lines 144–158, given the already-fetched student document and the
retrieved logs: the summary to return and, when the auto-lock policy fires,
the value to write to `locked_for_attendance` (`none` means no write). -/
def evalCore (student : StudentDoc) (logs : List AttendanceDoc) :
    AttendanceSummary × Option Bool :=
  let total := logs.length
  let present := (logs.filter isPresent).length
  let absent := total - present
  let percentage := pct present total
  let locked := student.locked_for_attendance.getD false
  if student.category = some "engineering" then
    let shouldLock := decide (percentage < 75)
    if shouldLock ≠ locked then
      ({ total := total, present := present, absent := absent,
         percentage := percentage, locked_for_attendance := shouldLock }, some shouldLock)
    else
      ({ total := total, present := present, absent := absent,
         percentage := percentage, locked_for_attendance := locked }, none)
  else
    ({ total := total, present := present, absent := absent,
       percentage := percentage, locked_for_attendance := locked }, none)

/-- The evaluator `attendance_summary` of `main.py` lines 133–162:
fetch the student (404 when absent), retrieve the windowed logs, compute the
summary, and perform the conditional auto-lock write. -/
def attendance_summary (st : Store) (sid : String) (days : Nat) (now : Int) : EvalResult :=
  match findDoc st.students sid with
  | none => ⟨Except.error Err.notFound, st, 0⟩
  | some student =>
    let logs := windowLogs st sid days now
    match evalCore student logs with
    | (summary, some v) =>
      ⟨Except.ok summary, { st with students := updateFirst st.students sid v }, 1⟩
    | (summary, none) => ⟨Except.ok summary, st, 0⟩

/-- `manual_lock` / `manual_unlock` (`main.py` lines 165–178):
`update_one` setting the lock to `v`; 404 when the update matched zero
documents, i.e. when no student has id `sid`. -/
def set_lock (st : Store) (sid : String) (v : Bool) : Except Err Bool × Store :=
  match findDoc st.students sid with
  | none => (Except.error Err.notFound, st)
  | some _ => (Except.ok v, { st with students := updateFirst st.students sid v })

/-- `POST /students/{id}/lock`. -/
def manual_lock (st : Store) (sid : String) : Except Err Bool × Store := set_lock st sid true

/-- `POST /students/{id}/unlock`. -/
def manual_unlock (st : Store) (sid : String) : Except Err Bool × Store := set_lock st sid false

/-- The caller-facing validation of the `days` query parameter, declared at
`main.py` line 133 as `Query(120, ge=1, le=365)`: default 120 when the
caller supplies no value, rejection before the handler runs when the value
lies outside `[1, 365]`. -/
def validate_days (d : Option Int) : Except Err Nat :=
  match d with
  | none => Except.ok 120
  | some v => if 1 ≤ v ∧ v ≤ 365 then Except.ok v.toNat else Except.error Err.invalidArgument

/-- `GET /students/{id}/attendance/summary?days=...`: the boundary validation
followed by the evaluator.  A validation failure returns before the evaluator
runs, so the store is untouched and no write occurs. -/
def attendance_summary_endpoint (st : Store) (sid : String) (d : Option Int) (now : Int) :
    EvalResult :=
  match validate_days d with
  | Except.error e => ⟨Except.error e, st, 0⟩
  | Except.ok days => attendance_summary st sid days now

/-- The effective stored lock state of a student: the stored flag, read the
way line 149 reads it (`bool(student.get("locked_for_attendance", False))`),
or `none` when the student does not exist. -/
def effLock (st : Store) (sid : String) : Option Bool :=
  (findDoc st.students sid).map fun d => d.locked_for_attendance.getD false

/-- The percentage a call of the evaluator computes for `sid` (lines
144–147), exposed for stating the lock-policy claims. -/
def computedPct (st : Store) (sid : String) (days : Nat) (now : Int) : ℚ :=
  pct ((windowLogs st sid days now).filter isPresent).length (windowLogs st sid days now).length

/-! ## Demonstration data

The scenario of the spec's §8: student `"S1"`, category `"engineering"`,
initially unlocked, with ten attendance records of which seven are present,
all timestamped inside any window ending at `now = 0`. -/

def demoLogs : List AttendanceDoc :=
  List.replicate 7 ⟨"S1", some "present", 0⟩ ++ List.replicate 3 ⟨"S1", some "absent", 0⟩

def demoStudent : StudentDoc := ⟨some "engineering", some false⟩

def demoStore : Store := ⟨[("S1", demoStudent)], demoLogs⟩

/-! ## Infrastructure lemmas -/

theorem findDoc_updateFirst (l : List (String × StudentDoc)) (sid : String) (v : Bool) :
    findDoc (updateFirst l sid v) sid =
      (findDoc l sid).map fun d => { d with locked_for_attendance := some v } := by
  induction l with
  | nil => rfl
  | cons p rest ih =>
    by_cases h : p.1 = sid <;> simp [updateFirst, findDoc, h, ih]

theorem windowLogs_set_students (st : Store) (s' : List (String × StudentDoc))
    (sid : String) (days : Nat) (now : Int) :
    windowLogs { st with students := s' } sid days now = windowLogs st sid days now := rfl

/-- Closed form of `evalCore`: the summary fields, the reported lock state,
and the conditional write payload. -/
theorem evalCore_eq (s : StudentDoc) (logs : List AttendanceDoc) :
    evalCore s logs =
      ({ total := logs.length,
         present := (logs.filter isPresent).length,
         absent := logs.length - (logs.filter isPresent).length,
         percentage := pct (logs.filter isPresent).length logs.length,
         locked_for_attendance :=
           if s.category = some "engineering" then
             decide (pct (logs.filter isPresent).length logs.length < 75)
           else s.locked_for_attendance.getD false },
       if s.category = some "engineering" ∧
           decide (pct (logs.filter isPresent).length logs.length < 75) ≠
             s.locked_for_attendance.getD false then
         some (decide (pct (logs.filter isPresent).length logs.length < 75))
       else none) := by
  by_cases hc : s.category = some "engineering"
  · by_cases hw : decide (pct (logs.filter isPresent).length logs.length < 75) ≠
        s.locked_for_attendance.getD false
    · simp [evalCore, hc, hw]
    · push_neg at hw
      simp [evalCore, hc, hw]
  · simp [evalCore, hc]

/-- Reduction of the evaluator when the student exists. -/
theorem attendance_summary_some (st : Store) (sid : String) (days : Nat) (now : Int)
    (d : StudentDoc) (h : findDoc st.students sid = some d) :
    attendance_summary st sid days now =
      match evalCore d (windowLogs st sid days now) with
      | (summary, some v) =>
        ⟨Except.ok summary, { st with students := updateFirst st.students sid v }, 1⟩
      | (summary, none) => ⟨Except.ok summary, st, 0⟩ := by
  unfold attendance_summary
  rw [h]

/-- Reduction of the evaluator when the policy fires and writes. -/
theorem attendance_summary_write (st : Store) (sid : String) (days : Nat) (now : Int)
    (d : StudentDoc) (v : Bool) (h : findDoc st.students sid = some d)
    (hE : (evalCore d (windowLogs st sid days now)).2 = some v) :
    attendance_summary st sid days now =
      ⟨Except.ok (evalCore d (windowLogs st sid days now)).1,
       { st with students := updateFirst st.students sid v }, 1⟩ := by
  rcases hEv : evalCore d (windowLogs st sid days now) with ⟨s, w⟩
  rw [hEv] at hE
  simp only at hE
  subst hE
  unfold attendance_summary
  simp only [h, hEv]

/-- Reduction of the evaluator when no write is performed. -/
theorem attendance_summary_nowrite (st : Store) (sid : String) (days : Nat) (now : Int)
    (d : StudentDoc) (h : findDoc st.students sid = some d)
    (hE : (evalCore d (windowLogs st sid days now)).2 = none) :
    attendance_summary st sid days now =
      ⟨Except.ok (evalCore d (windowLogs st sid days now)).1, st, 0⟩ := by
  rcases hEv : evalCore d (windowLogs st sid days now) with ⟨s, w⟩
  rw [hEv] at hE
  simp only at hE
  subst hE
  unfold attendance_summary
  simp only [h, hEv]

/-- Reduction of the evaluator when the student does not exist. -/
theorem attendance_summary_none (st : Store) (sid : String) (days : Nat) (now : Int)
    (h : findDoc st.students sid = none) :
    attendance_summary st sid days now = ⟨Except.error Err.notFound, st, 0⟩ := by
  unfold attendance_summary
  rw [h]

/-- Every successful response carries the aggregate of the windowed logs. -/
theorem response_ok_fields (st : Store) (sid : String) (days : Nat) (now : Int)
    (s : AttendanceSummary)
    (h : (attendance_summary st sid days now).response = Except.ok s) :
    s.total = (windowLogs st sid days now).length ∧
    s.present = ((windowLogs st sid days now).filter isPresent).length ∧
    s.absent = s.total - s.present ∧
    s.percentage = pct s.present s.total := by
  cases hf : findDoc st.students sid with
  | none =>
    rw [attendance_summary_none st sid days now hf] at h
    exact absurd h (by simp)
  | some d =>
    rw [attendance_summary_some st sid days now d hf, evalCore_eq] at h
    by_cases hw : d.category = some "engineering" ∧
        decide (pct ((windowLogs st sid days now).filter isPresent).length
          (windowLogs st sid days now).length < 75) ≠ d.locked_for_attendance.getD false
    · rw [if_pos hw] at h
      simp only [Except.ok.injEq] at h
      subst h
      exact ⟨rfl, rfl, rfl, rfl⟩
    · rw [if_neg hw] at h
      simp only [Except.ok.injEq] at h
      subst h
      exact ⟨rfl, rfl, rfl, rfl⟩

/-- `roundHalfEven` never strays more than a half from its argument. -/
theorem abs_roundHalfEven_sub_le (q : ℚ) : |(roundHalfEven q : ℚ) - q| ≤ 1/2 := by
  have h0 : (⌊q⌋ : ℚ) ≤ q := Int.floor_le q
  have h1 : q < ⌊q⌋ + 1 := Int.lt_floor_add_one q
  simp only [roundHalfEven]
  split_ifs with hlt hgt hev <;>
    · rw [abs_le]
      constructor <;> push_cast <;> linarith

/-- `round2` lands within `1/200` of its argument. -/
theorem abs_round2_sub_le (x : ℚ) : |round2 x - x| ≤ 1/200 := by
  have h := abs_roundHalfEven_sub_le (x * 100)
  have hrw : round2 x - x = ((roundHalfEven (x * 100) : ℚ) - x * 100) / 100 := by
    simp only [round2]
    ring
  rw [hrw, abs_div]
  have h100 : |(100 : ℚ)| = 100 := by norm_num
  rw [h100, div_le_iff₀ (by norm_num : (0:ℚ) < 100)]
  linarith

/-! ## Claims -/

/-- C4: in every summary returned by the evaluator, `present + absent = total`
and `absent = total - present`, for any multiset of retrieved records. -/
theorem c4_present_absent_total (st : Store) (sid : String) (days : Nat) (now : Int)
    (s : AttendanceSummary)
    (h : (attendance_summary st sid days now).response = Except.ok s) :
    s.present + s.absent = s.total ∧ s.absent = s.total - s.present := by
  obtain ⟨ht, hp, ha, _⟩ := response_ok_fields st sid days now s h
  have hle : s.present ≤ s.total := by
    rw [ht, hp]
    exact List.length_filter_le _ _
  exact ⟨by omega, ha⟩

/-- C5: when the number of retrieved records is zero the returned percentage
is exactly `0`, and the division is guarded: the percentage is the division
result only in the `total > 0` branch. -/
theorem c5_zero_total_zero_percentage (st : Store) (sid : String) (days : Nat) (now : Int)
    (s : AttendanceSummary)
    (h : (attendance_summary st sid days now).response = Except.ok s) :
    (s.total = 0 → s.percentage = 0) ∧
    s.percentage =
      (if s.total = 0 then 0 else round2 ((s.present : ℚ) / (s.total : ℚ) * 100)) := by
  obtain ⟨_, _, _, hq⟩ := response_ok_fields st sid days now s h
  refine ⟨fun h0 => ?_, ?_⟩
  · rw [hq, pct, if_pos h0]
  · rw [hq, pct]

/-- C7: an unknown student id fails with `NotFoundError` (404) and the store
is untouched: every student document and every attendance record is
unchanged, and no write is performed. -/
theorem c7_unknown_student_not_found (st : Store) (sid : String) (days : Nat) (now : Int)
    (h : findDoc st.students sid = none) :
    attendance_summary st sid days now = ⟨Except.error Err.notFound, st, 0⟩ :=
  attendance_summary_none st sid days now h

/-- C1: for an existing student of category `"engineering"`, after the call
the stored lock state is `true` when the computed percentage is `< 75` and
`false` when it is `≥ 75`; for a student of any other category the store is
unchanged by the call, whatever the percentage. -/
theorem c1_engineering_autolock (st : Store) (sid : String) (days : Nat) (now : Int)
    (d : StudentDoc) (h : findDoc st.students sid = some d) :
    (d.category = some "engineering" →
      (computedPct st sid days now < 75 →
        effLock (attendance_summary st sid days now).store sid = some true) ∧
      (75 ≤ computedPct st sid days now →
        effLock (attendance_summary st sid days now).store sid = some false)) ∧
    (d.category ≠ some "engineering" →
      (attendance_summary st sid days now).store = st) := by
  rw [attendance_summary_some st sid days now d h, evalCore_eq]
  by_cases hw : d.category = some "engineering" ∧
      decide (pct ((windowLogs st sid days now).filter isPresent).length
        (windowLogs st sid days now).length < 75) ≠ d.locked_for_attendance.getD false
  · rw [if_pos hw]
    refine ⟨fun _ => ⟨fun hlt => ?_, fun hge => ?_⟩, fun hcat => absurd hw.1 hcat⟩
    · simp only [effLock, findDoc_updateFirst, h, Option.map_some]
      simp [computedPct] at hlt
      simp [hlt]
    · simp only [effLock, findDoc_updateFirst, h, Option.map_some]
      simp only [computedPct] at hge
      simp [not_lt.2 hge]
  · rw [if_neg hw]
    refine ⟨fun hcat => ?_, fun _ => rfl⟩
    have hsame : decide (pct ((windowLogs st sid days now).filter isPresent).length
        (windowLogs st sid days now).length < 75) = d.locked_for_attendance.getD false := by
      by_contra hne
      exact hw ⟨hcat, hne⟩
    refine ⟨fun hlt => ?_, fun hge => ?_⟩
    · simp only [computedPct] at hlt
      simp [effLock, h, ← hsame, hlt]
    · simp only [computedPct] at hge
      simp [effLock, h, ← hsame, not_lt.2 hge]

/-- C3: a retrieved record counts toward `present` exactly when its status
literally equals `"present"` or is absent (the schema default); every other
status counts toward `absent`. -/
theorem c3_present_counting (st : Store) (sid : String) (days : Nat) (now : Int)
    (s : AttendanceSummary)
    (h : (attendance_summary st sid days now).response = Except.ok s) :
    s.present = (windowLogs st sid days now).countP
      (fun l => decide (l.status = some "present" ∨ l.status = none)) ∧
    s.absent = (windowLogs st sid days now).countP
      (fun l => decide (¬(l.status = some "present" ∨ l.status = none))) := by
  obtain ⟨ht, hp, ha, _⟩ := response_ok_fields st sid days now s h
  have hpred : isPresent =
      fun l : AttendanceDoc => decide (l.status = some "present" ∨ l.status = none) := by
    funext l
    cases hs : l.status with
    | none => simp [isPresent, hs]
    | some v =>
      by_cases hv : v = "present" <;> simp [isPresent, hs, hv]
  have hcount : s.present = (windowLogs st sid days now).countP
      (fun l => decide (l.status = some "present" ∨ l.status = none)) := by
    rw [hp, ← List.countP_eq_length_filter, hpred]
  refine ⟨hcount, ?_⟩
  have hlen := (windowLogs st sid days now).length_eq_countP_add_countP
    (fun l => decide (l.status = some "present" ∨ l.status = none))
  have hnot : ((windowLogs st sid days now).countP
      fun l => ¬ decide (l.status = some "present" ∨ l.status = none)) =
      ((windowLogs st sid days now).countP
      fun l => decide (¬(l.status = some "present" ∨ l.status = none))) := by
    apply List.countP_congr
    intro l _
    by_cases hl : l.status = some "present" ∨ l.status = none <;> simp [hl]
  rw [ha, ht, hcount]
  omega

/-- C6: with a positive total, the percentage is an integer number of
hundredths (exactly two decimal places) within half a hundredth of
`present / total × 100`; in particular 2 of 3 gives `66.67` and 7 of 10
gives `70`. -/
theorem c6_percentage_rounding (st : Store) (sid : String) (days : Nat) (now : Int)
    (s : AttendanceSummary)
    (h : (attendance_summary st sid days now).response = Except.ok s)
    (ht : s.total ≠ 0) :
    (∃ k : Int, s.percentage = (k : ℚ) / 100) ∧
    |s.percentage - (s.present : ℚ) / (s.total : ℚ) * 100| ≤ 1/200 ∧
    pct 2 3 = 6667/100 ∧ pct 7 10 = 70 := by
  obtain ⟨_, _, _, hq⟩ := response_ok_fields st sid days now s h
  rw [hq, pct, if_neg ht]
  refine ⟨⟨roundHalfEven ((s.present : ℚ) / (s.total : ℚ) * 100 * 100), rfl⟩,
    abs_round2_sub_le _, ?_, ?_⟩
  · norm_num [pct, round2, roundHalfEven]
  · norm_num [pct, round2, roundHalfEven]

/-- After the auto-lock write for an engineering student, a repeated call
returns the same summary and performs no write. -/
theorem attendance_summary_after_write (st : Store) (sid : String) (days : Nat)
    (now : Int) (d : StudentDoc) (b : Bool) (hf : findDoc st.students sid = some d)
    (hcat : d.category = some "engineering")
    (hb : decide (pct ((windowLogs st sid days now).filter isPresent).length
      (windowLogs st sid days now).length < 75) = b) :
    (attendance_summary { st with students := updateFirst st.students sid b }
        sid days now).response =
      Except.ok (evalCore d (windowLogs st sid days now)).1 ∧
    (attendance_summary { st with students := updateFirst st.students sid b }
        sid days now).writes = 0 := by
  have hf2 : findDoc (updateFirst st.students sid b) sid =
      some { d with locked_for_attendance := some b } := by
    rw [findDoc_updateFirst, hf, Option.map_some']
  have hE2 : (evalCore { d with locked_for_attendance := some b }
      (windowLogs st sid days now)).2 = none := by
    rw [evalCore_eq]
    simp [hb]
  have h2 := attendance_summary_nowrite
    { st with students := updateFirst st.students sid b } sid days now _ hf2
    (by rw [windowLogs_set_students]; exact hE2)
  rw [windowLogs_set_students] at h2
  rw [h2]
  refine ⟨?_, rfl⟩
  dsimp only
  rw [evalCore_eq, evalCore_eq]
  simp [hcat]

/-- C2: each call performs at most one conditional write, exactly when the
student is in the `"engineering"` category and the computed policy value
differs from the stored one; an immediately repeated call (same records,
same window) returns an identical summary and performs no write. -/
theorem c2_idempotent_conditional_write (st : Store) (sid : String) (days : Nat)
    (now : Int) :
    (attendance_summary st sid days now).writes ≤ 1 ∧
    ((attendance_summary st sid days now).writes = 1 ↔
      ∃ d, findDoc st.students sid = some d ∧ d.category = some "engineering" ∧
        decide (computedPct st sid days now < 75) ≠ d.locked_for_attendance.getD false) ∧
    (attendance_summary (attendance_summary st sid days now).store sid days now).response =
      (attendance_summary st sid days now).response ∧
    (attendance_summary (attendance_summary st sid days now).store sid days now).writes
      = 0 := by
  cases hf : findDoc st.students sid with
  | none =>
    rw [attendance_summary_none st sid days now hf]
    refine ⟨by norm_num, ?_,
      by rw [attendance_summary_none st sid days now hf],
      by rw [attendance_summary_none st sid days now hf]⟩
    simp only [EvalResult.writes]
    constructor
    · intro h01
      exact absurd h01 (by norm_num)
    · rintro ⟨d, hd, -, -⟩
      exact absurd hd (by simp)
  | some d =>
    by_cases hw : d.category = some "engineering" ∧
        decide (pct ((windowLogs st sid days now).filter isPresent).length
          (windowLogs st sid days now).length < 75) ≠ d.locked_for_attendance.getD false
    · have hE : (evalCore d (windowLogs st sid days now)).2 =
          some (decide (pct ((windowLogs st sid days now).filter isPresent).length
            (windowLogs st sid days now).length < 75)) := by
        rw [evalCore_eq, if_pos hw]
      rw [attendance_summary_write st sid days now d _ hf hE]
      have haux := attendance_summary_after_write st sid days now d _ hf hw.1 rfl
      refine ⟨le_refl 1, ⟨fun _ => ⟨d, rfl, hw.1, hw.2⟩, fun _ => rfl⟩, ?_, ?_⟩
      · dsimp only
        exact haux.1
      · dsimp only
        exact haux.2
    · have hE : (evalCore d (windowLogs st sid days now)).2 = none := by
        rw [evalCore_eq, if_neg hw]
      rw [attendance_summary_nowrite st sid days now d hf hE]
      refine ⟨by norm_num, ?_, ?_, ?_⟩
      · simp only [EvalResult.writes]
        constructor
        · intro h01
          exact absurd h01 (by norm_num)
        · rintro ⟨d2, hd2, hcat2, hne2⟩
          injection hd2 with hdd
          subst hdd
          exact absurd ⟨hcat2, hne2⟩ hw
      · dsimp only
        rw [attendance_summary_nowrite st sid days now d hf hE]
      · dsimp only
        rw [attendance_summary_nowrite st sid days now d hf hE]

/-- C8: the manual lock and unlock operations unconditionally set the stored
flag to the given value for any existing student — independent of category
and of any percentage — and return it; an unknown id fails with
`NotFoundError` (404) and leaves the store unchanged. -/
theorem c8_manual_set_lock (st : Store) (sid : String) :
    (∀ d, findDoc st.students sid = some d →
      (manual_lock st sid).1 = Except.ok true ∧
      findDoc (manual_lock st sid).2.students sid =
        some { d with locked_for_attendance := some true } ∧
      (manual_lock st sid).2.logs = st.logs ∧
      (manual_unlock st sid).1 = Except.ok false ∧
      findDoc (manual_unlock st sid).2.students sid =
        some { d with locked_for_attendance := some false } ∧
      (manual_unlock st sid).2.logs = st.logs) ∧
    (findDoc st.students sid = none →
      manual_lock st sid = (Except.error Err.notFound, st) ∧
      manual_unlock st sid = (Except.error Err.notFound, st)) := by
  constructor
  · intro d hd
    have hl : manual_lock st sid =
        (Except.ok true, { st with students := updateFirst st.students sid true }) := by
      simp only [manual_lock, set_lock, hd]
    have hu : manual_unlock st sid =
        (Except.ok false, { st with students := updateFirst st.students sid false }) := by
      simp only [manual_unlock, set_lock, hd]
    rw [hl, hu]
    refine ⟨rfl, ?_, rfl, rfl, ?_, rfl⟩ <;>
      rw [findDoc_updateFirst, hd, Option.map_some']
  · intro hd
    have hl : manual_lock st sid = (Except.error Err.notFound, st) := by
      simp only [manual_lock, set_lock, hd]
    have hu : manual_unlock st sid = (Except.error Err.notFound, st) := by
      simp only [manual_unlock, set_lock, hd]
    exact ⟨hl, hu⟩

/-- C9: the `days` parameter defaults to 120 when unsupplied, is accepted
exactly when it lies in `[1, 365]`, and any out-of-range value fails with
`InvalidArgumentError` before the evaluator runs: the store is unchanged and
no write occurs. -/
theorem c9_days_validation (st : Store) (sid : String) (now : Int) :
    validate_days none = Except.ok 120 ∧
    attendance_summary_endpoint st sid none now = attendance_summary st sid 120 now ∧
    (∀ v : Int, validate_days (some v) = Except.ok v.toNat ↔ 1 ≤ v ∧ v ≤ 365) ∧
    (∀ v : Int, ¬(1 ≤ v ∧ v ≤ 365) →
      attendance_summary_endpoint st sid (some v) now =
        ⟨Except.error Err.invalidArgument, st, 0⟩) := by
  refine ⟨rfl, rfl, fun v => ?_, fun v hv => ?_⟩
  · constructor
    · intro h
      by_contra hnot
      simp only [validate_days, if_neg hnot] at h
      exact Except.noConfusion h
    · intro h
      simp only [validate_days, if_pos h]
  · simp only [attendance_summary_endpoint, validate_days, if_neg hv]

/-- C10: a student whose stored record has no `locked_for_attendance` field
behaves exactly as one whose field is `false`: the call returns the same
response and performs the same writes as it would after an explicit unlock,
and outside the engineering policy the reported lock state is `false`. -/
theorem c10_missing_lock_defaults_false (st : Store) (sid : String) (days : Nat)
    (now : Int) (d : StudentDoc) (h : findDoc st.students sid = some d)
    (hm : d.locked_for_attendance = none) :
    (attendance_summary st sid days now).response =
      (attendance_summary (manual_unlock st sid).2 sid days now).response ∧
    (attendance_summary st sid days now).writes =
      (attendance_summary (manual_unlock st sid).2 sid days now).writes ∧
    (d.category ≠ some "engineering" →
      ∃ s, (attendance_summary st sid days now).response = Except.ok s ∧
        s.locked_for_attendance = false) := by
  have hst' : (manual_unlock st sid).2 =
      { st with students := updateFirst st.students sid false } := by
    simp only [manual_unlock, set_lock, h]
  have hf2 : findDoc (updateFirst st.students sid false) sid =
      some { d with locked_for_attendance := some false } := by
    rw [findDoc_updateFirst, h, Option.map_some']
  have hcore : evalCore d (windowLogs st sid days now) =
      evalCore { d with locked_for_attendance := some false }
        (windowLogs st sid days now) := by
    rw [evalCore_eq, evalCore_eq]
    simp [hm]
  have hcore2 : evalCore { d with locked_for_attendance := some false }
      (windowLogs { st with students := updateFirst st.students sid false }
        sid days now) =
      evalCore d (windowLogs st sid days now) := by
    rw [windowLogs_set_students, ← hcore]
  rw [hst']
  refine ⟨?_, ?_, fun hcat => ?_⟩
  · cases hE : (evalCore d (windowLogs st sid days now)).2 with
    | some v =>
      rw [attendance_summary_write st sid days now d v h hE,
        attendance_summary_write _ sid days now _ v hf2 (by rw [hcore2]; exact hE)]
      dsimp only
      rw [hcore2]
    | none =>
      rw [attendance_summary_nowrite st sid days now d h hE,
        attendance_summary_nowrite _ sid days now _ hf2 (by rw [hcore2]; exact hE)]
      dsimp only
      rw [hcore2]
  · cases hE : (evalCore d (windowLogs st sid days now)).2 with
    | some v =>
      rw [attendance_summary_write st sid days now d v h hE,
        attendance_summary_write _ sid days now _ v hf2 (by rw [hcore2]; exact hE)]
    | none =>
      rw [attendance_summary_nowrite st sid days now d h hE,
        attendance_summary_nowrite _ sid days now _ hf2 (by rw [hcore2]; exact hE)]
  · have hE0 : (evalCore d (windowLogs st sid days now)).2 = none := by
      rw [evalCore_eq]
      simp [hcat]
    rw [attendance_summary_nowrite st sid days now d h hE0]
    refine ⟨(evalCore d (windowLogs st sid days now)).1, rfl, ?_⟩
    rw [evalCore_eq]
    simp [hcat, hm]

/-! ## Concrete witnesses

The spec's §8 scenario: student `"S1"`, category `"engineering"`, initially
unlocked, 10 records with 7 present in the window, so 70 % and the auto-lock
fires; plus variants (category `"jee"`, missing lock field, empty store). -/

/-- A second demonstration store: same id and records, category `"jee"`, no
stored lock field at all. -/
def demoStoreJee : Store := ⟨[("S1", ⟨some "jee", none⟩)], demoLogs⟩

/-- The demo scenario computed: total 10, present 7, absent 3, 70 %, lock
flipped to `true`. -/
theorem demo_response_eq :
    (attendance_summary demoStore "S1" 120 0).response =
      Except.ok ⟨10, 7, 3, 70, true⟩ := by
  simp [attendance_summary, demoStore, demoStudent, demoLogs, findDoc, windowLogs, evalCore,
    isPresent, List.filter, List.replicate, updateFirst]
  norm_num [pct, round2, roundHalfEven]

theorem c1_witness :
    effLock (attendance_summary demoStore "S1" 120 0).store "S1" = some true := by
  have hlt : computedPct demoStore "S1" 120 0 < 75 := by
    have hp : computedPct demoStore "S1" 120 0 = pct 7 10 := rfl
    rw [hp]
    norm_num [pct, round2, roundHalfEven]
  exact (c1_engineering_autolock demoStore "S1" 120 0 demoStudent rfl).1 rfl |>.1 hlt

theorem c2_witness :
    (attendance_summary demoStore "S1" 120 0).writes ≤ 1 ∧
    (attendance_summary
        (attendance_summary demoStore "S1" 120 0).store "S1" 120 0).writes = 0 := by
  have h := c2_idempotent_conditional_write demoStore "S1" 120 0
  exact ⟨h.1, h.2.2.2⟩

theorem c3_witness :
    (7 : Nat) = (windowLogs demoStore "S1" 120 0).countP
      (fun l => decide (l.status = some "present" ∨ l.status = none)) ∧
    (3 : Nat) = (windowLogs demoStore "S1" 120 0).countP
      (fun l => decide (¬(l.status = some "present" ∨ l.status = none))) :=
  c3_present_counting demoStore "S1" 120 0 ⟨10, 7, 3, 70, true⟩ demo_response_eq

theorem c4_witness : (7 : Nat) + 3 = 10 ∧ (3 : Nat) = 10 - 7 :=
  c4_present_absent_total demoStore "S1" 120 0 ⟨10, 7, 3, 70, true⟩ demo_response_eq

/-- A store whose student has no attendance records at all. -/
def demoStoreEmpty : Store := ⟨[("S1", ⟨some "jee", some false⟩)], []⟩

theorem demo_response_empty :
    (attendance_summary demoStoreEmpty "S1" 120 0).response =
      Except.ok ⟨0, 0, 0, 0, false⟩ := by
  simp [attendance_summary, demoStoreEmpty, findDoc, windowLogs, evalCore, isPresent,
    List.filter, pct]

theorem c5_witness :
    (⟨0, 0, 0, 0, false⟩ : AttendanceSummary).percentage = 0 :=
  (c5_zero_total_zero_percentage demoStoreEmpty "S1" 120 0 ⟨0, 0, 0, 0, false⟩
    demo_response_empty).1 rfl

theorem c6_witness :
    (∃ k : Int, (70 : ℚ) = (k : ℚ) / 100) ∧
    |(70 : ℚ) - (7 : ℚ) / (10 : ℚ) * 100| ≤ 1/200 ∧
    pct 2 3 = 6667/100 ∧ pct 7 10 = 70 :=
  c6_percentage_rounding demoStore "S1" 120 0 ⟨10, 7, 3, 70, true⟩ demo_response_eq
    (by decide)

theorem c7_witness :
    attendance_summary ⟨[], []⟩ "S1" 120 0 =
      ⟨Except.error Err.notFound, ⟨[], []⟩, 0⟩ :=
  c7_unknown_student_not_found ⟨[], []⟩ "S1" 120 0 rfl

theorem c8_witness :
    (manual_lock demoStore "S1").1 = Except.ok true ∧
    findDoc (manual_lock demoStore "S1").2.students "S1" =
      some { demoStudent with locked_for_attendance := some true } ∧
    (manual_lock demoStore "S1").2.logs = demoStore.logs ∧
    (manual_unlock demoStore "S1").1 = Except.ok false ∧
    findDoc (manual_unlock demoStore "S1").2.students "S1" =
      some { demoStudent with locked_for_attendance := some false } ∧
    (manual_unlock demoStore "S1").2.logs = demoStore.logs :=
  (c8_manual_set_lock demoStore "S1").1 demoStudent rfl

theorem c9_witness :
    validate_days none = Except.ok 120 ∧
    validate_days (some 120) = Except.ok (120 : Int).toNat ∧
    attendance_summary_endpoint demoStore "S1" (some 400) 0 =
      ⟨Except.error Err.invalidArgument, demoStore, 0⟩ := by
  have h := c9_days_validation demoStore "S1" 0
  exact ⟨h.1, (h.2.2.1 120).mpr (by decide), h.2.2.2 400 (by decide)⟩

theorem c10_witness :
    (attendance_summary demoStoreJee "S1" 120 0).response =
      (attendance_summary (manual_unlock demoStoreJee "S1").2 "S1" 120 0).response ∧
    (attendance_summary demoStoreJee "S1" 120 0).writes =
      (attendance_summary (manual_unlock demoStoreJee "S1").2 "S1" 120 0).writes ∧
    ∃ s, (attendance_summary demoStoreJee "S1" 120 0).response = Except.ok s ∧
      s.locked_for_attendance = false := by
  have h := c10_missing_lock_defaults_false demoStoreJee "S1" 120 0 ⟨some "jee", none⟩ rfl rfl
  exact ⟨h.1, h.2.1, h.2.2 (by decide)⟩

end ClassGuard
